import Mathlib

/-!
# opensearch-demo: the HTTP facade of `main.go`

A shallow embedding of `main.go` and the properties of its handlers, its
readiness prober and its startup sequence.

Conventions of the embedding.

* Go `string` values are Lean `String`s, Go `int` values are `Int`s, an `error`
  is represented by its text (`err.Error()`).
* The OpenSearch client is an oracle (`Client`): what each call returns is a
  parameter, so a theorem quantified over the client holds for every backend
  behaviour. Every call that a function issues is recorded in the list of
  `Event`s the function returns next to its result.
* `http.ResponseWriter` is a record with the contract of `net/http`: the status
  line is fixed by the first `WriteHeader` (a later one is ignored), a `Write`
  may fail.
* `json.Decoder.Decode` into a `map[string]interface{}` and `json.MarshalIndent`
  are parameters (`JSONLib`); the encoder of the two-field struct `jsonResponse`
  is written out.
* `log.Printf` and `log.Println` output is not modelled; `log.Fatal` is the
  event `fatal`, after which the process has exited.
-/

namespace OpenSearchDemo

/-! ## net/http: status codes and the response writer -/

def StatusOK : Int := 200

def StatusBadRequest : Int := 400

def StatusInternalServerError : Int := 500

/-- The state of an `http.ResponseWriter`. `header` is the live header map,
`sentHeader` and `status` are what `WriteHeader` put on the wire, `body` the
bytes accepted by `Write`. `writeErrs` scripts the writer: the head says
whether the next `Write` returns an error (an empty script: no error). -/
structure ResponseWriter where
  header : List (String × String) := []
  wroteHeader : Bool := false
  status : Int := 0
  sentHeader : List (String × String) := []
  body : String := ""
  writeErrs : List Bool := []
deriving DecidableEq, Repr

namespace ResponseWriter

/-- `w.Header().Set(key, value)`: replaces the values of `key`. -/
def Set (w : ResponseWriter) (key value : String) : ResponseWriter :=
  { w with header := (w.header.filter fun kv => kv.1 != key) ++ [(key, value)] }

/-- `w.WriteHeader(code)`: sends the status line and a snapshot of the header
map; once a header has been written a further call is superfluous and changes
nothing. -/
def WriteHeader (w : ResponseWriter) (code : Int) : ResponseWriter :=
  if w.wroteHeader then w
  else { w with wroteHeader := true, status := code, sentHeader := w.header }

/-- `w.Write(data)`: writes the header with `StatusOK` first when none was
written, then the data. Returns the error of the write, if any. -/
def Write (w : ResponseWriter) (data : String) : ResponseWriter × Option String :=
  let w := w.WriteHeader StatusOK
  match w.writeErrs with
  | true :: rest => ({ w with writeErrs := rest }, some "write failed")
  | false :: rest => ({ w with writeErrs := rest, body := w.body ++ data }, none)
  | [] => ({ w with body := w.body ++ data }, none)

/-- The value of header `key` as sent on the wire. -/
def sent (w : ResponseWriter) (key : String) : Option String :=
  (w.sentHeader.find? fun kv => kv.1 == key).map Prod.snd

end ResponseWriter

/-- `http.Error(w, error, code)`: plain-text headers, the status, then the
text and a newline (`fmt.Fprintln`). No encoder is involved. -/
def httpError (w : ResponseWriter) (error : String) (code : Int) : ResponseWriter :=
  let w := w.Set "Content-Type" "text/plain; charset=utf-8"
  let w := w.Set "X-Content-Type-Options" "nosniff"
  let w := w.WriteHeader code
  (w.Write (error ++ "\n")).1

/-! ## The envelope and its JSON encoding -/

/-- The struct `jsonResponse`: `Message` is tagged `json:"message"`, `Error` is
tagged `json:"error,omitempty"`. -/
structure jsonResponse where
  Message : String := ""
  Error : String := ""
deriving DecidableEq, Repr

def hexDigit (n : Nat) : Char :=
  "0123456789abcdef".toList.getD n '0'

/-- How `encoding/json` writes one character of a string (HTML escaping on,
as `json.NewEncoder` has it). -/
def escapeChar (c : Char) : List Char :=
  if c = '\\' ∨ c = '"' then ['\\', c]
  else if c = '\x08' then ['\\', 'b']
  else if c = '\x0c' then ['\\', 'f']
  else if c = '\n' then ['\\', 'n']
  else if c = '\r' then ['\\', 'r']
  else if c = '\t' then ['\\', 't']
  else if c.toNat < 0x20 ∨ c = '<' ∨ c = '>' ∨ c = '&' then
    ['\\', 'u', '0', '0', hexDigit (c.toNat / 16), hexDigit (c.toNat % 16)]
  else if c = '\u2028' then "\\u2028".toList
  else if c = '\u2029' then "\\u2029".toList
  else [c]

/-- A Go string as a JSON string literal. -/
def encodeString (s : String) : String :=
  String.mk ('"' :: (s.toList.flatMap escapeChar ++ ['"']))

/-- The members that `encoding/json` writes for a `jsonResponse`: the fields in
declaration order under their tag names, `error` left out when `Error` is
empty (`omitempty`); `message` has no such option. -/
def jsonResponse.members (p : jsonResponse) : List (String × String) :=
  [("message", p.Message)] ++ (if p.Error = "" then [] else [("error", p.Error)])

/-- `json.Marshal` of a `jsonResponse`: the compact object of its members. -/
def marshalJSONResponse (p : jsonResponse) : String :=
  "\x7b" ++ ",".intercalate (p.members.map fun kv => encodeString kv.1 ++ ":" ++ encodeString kv.2)
    ++ "\x7d"

/-- `json.NewEncoder(w).Encode(v)`: the marshalled value and a newline, in one
`Write`; returns the error of that write. -/
def Encode (w : ResponseWriter) (v : jsonResponse) : ResponseWriter × Option String :=
  w.Write (marshalJSONResponse v ++ "\n")

/-- `sendJSONResponse` of `main.go`. -/
def sendJSONResponse (w : ResponseWriter) (status : Int) (payload : jsonResponse) :
    ResponseWriter :=
  let w := w.Set "Content-Type" "application/json"
  let w := w.WriteHeader status
  match Encode w payload with
  | (w, none) => w
  | (w, some _) =>
    httpError w "\x7b\"error\": \"Internal Server Error\"\x7d" StatusInternalServerError

/-! ## The OpenSearch client and the JSON library -/

/-- What a call of the client returns: `(nil, err)` with the text of `err`, or
a response with its status code and body. -/
inductive CallResult where
  | err (text : String)
  | response (StatusCode : Int) (Body : String)
deriving DecidableEq, Repr

/-- The backend as seen through `*opensearch.Client`. `Info k` is what the
call number `k` (from 0) of `client.Info()` returns, `Search index body` what
`client.Search` returns for a request with that index and body. -/
structure Client where
  Info : Nat → CallResult
  Search : String → String → CallResult

/-- The two `encoding/json` entry points that `searchOpenSearch` uses on the
backend's answer. `Doc` stands for `map[string]interface{}`; `Decode` is
`json.NewDecoder(body).Decode(&resultMap)` and `MarshalIndent v pre ind` is
`json.MarshalIndent(v, pre, ind)`. -/
structure JSONLib (Doc : Type) where
  Decode : String → Except String Doc
  MarshalIndent : Doc → String → String → Except String String

/-- What the program does to the outside world, in order. Durations are in
nanoseconds, as `time.Duration`. -/
inductive Event where
  | sleep (d : Nat)
  | info
  | search (index body : String)
  | fatal (msg : String)
  | listen (addr : String)
deriving DecidableEq, Repr

/-- The number of `client.Info()` calls in a trace. -/
def probes (ev : List Event) : Nat :=
  ev.count Event.info

/-- The durations slept in a trace, in order. -/
def sleeps : List Event → List Nat
  | [] => []
  | Event.sleep d :: ev => d :: sleeps ev
  | _ :: ev => sleeps ev

/-- The constant `time.Second`. -/
def Second : Nat := 1000000000

/-! ## `testOpenSearchConnection` -/

/-- The argument of `time.Sleep` in iteration `i`:
`time.Duration(i+1*2) * time.Second`. -/
def backoff (i : Nat) : Nat :=
  (i + 1 * 2) * Second

/-- The loop `for i := range 10` of `testOpenSearchConnection`, from iteration
`i` with `n` iterations left. Iteration `i` issues the call number `i` of
`client.Info()`. -/
def testLoop (client : Client) (i : Nat) : Nat → Bool × List Event
  | 0 => (false, [])
  | n + 1 =>
    match client.Info i with
    | .err _ =>
      let r := testLoop client (i + 1) n
      (r.1, Event.sleep (backoff i) :: Event.info :: r.2)
    | .response StatusCode _ =>
      if StatusCode ≠ StatusOK then
        let r := testLoop client (i + 1) n
        (r.1, Event.sleep (backoff i) :: Event.info :: r.2)
      else (true, [Event.sleep (backoff i), Event.info])

/-- `testOpenSearchConnection` of `main.go`: its result and what it did. -/
def testOpenSearchConnection (client : Client) : Bool × List Event :=
  testLoop client 0 10

/-- A probe that counts as a success: no error and status 200. -/
def CallResult.ok : CallResult → Bool
  | .response StatusCode _ => StatusCode == StatusOK
  | .err _ => false

/-! ## `searchOpenSearch` -/

/-- The request body: `fmt.Sprintf` of the raw string literal with `query` in
the place of `%s`. -/
def searchBody (query : String) : String :=
  "\x7b\n\t\t\"query\": \x7b\n\t\t\t\"match\": \x7b\n\t\t\t\t\"content\": \"" ++ query
    ++ "\"\n\t\t\t\x7d\n\t\t\x7d\n\t\x7d"

/-- `searchOpenSearch` of `main.go`: `(results, err)` and the backend call made.
The error of `json.MarshalIndent` is discarded as in the source, which leaves
the empty string. -/
def searchOpenSearch {Doc : Type} (lib : JSONLib Doc) (client : Client) (query : String) :
    Except String String × List Event :=
  let body := searchBody query
  let ev := [Event.search "documents" body]
  match client.Search "documents" body with
  | .err e => (.error e, ev)
  | .response StatusCode Body =>
    if StatusCode ≠ StatusOK then
      (.error ("unexpected response code: " ++ toString StatusCode), ev)
    else
      match lib.Decode Body with
      | .error e => (.error ("failed to parse response: " ++ e), ev)
      | .ok resultMap =>
        match lib.MarshalIndent resultMap "" "  " with
        | .ok results => (.ok results, ev)
        | .error _ => (.ok "", ev)

/-! ## The handlers -/

/-- The parsed query of a request URL, `url.Values`. -/
abbrev Values := List (String × List String)

/-- `Values.Get`: the first value of `key`, the empty string when there is none. -/
def Values.Get (v : Values) (key : String) : String :=
  match v.lookup key with
  | some (x :: _) => x
  | _ => ""

/-- The handler of `GET /health`. -/
def healthHandler (w : ResponseWriter) : ResponseWriter × List Event :=
  (sendJSONResponse w StatusOK { Message := "API is healthy" }, [])

/-- The handler of `GET /`. -/
def rootHandler (opensearchURL : String) (w : ResponseWriter) : ResponseWriter × List Event :=
  (sendJSONResponse w StatusOK { Message := "Connected to OpenSearch at " ++ opensearchURL }, [])

/-- The handler of `GET /search`: the response written and the backend calls
made. -/
def searchHandler {Doc : Type} (lib : JSONLib Doc) (client : Client) (w : ResponseWriter)
    (urlQuery : Values) : ResponseWriter × List Event :=
  let query := urlQuery.Get "q"
  if query = "" then
    (sendJSONResponse w StatusBadRequest { Error := "Query parameter 'q' is required" }, [])
  else
    match searchOpenSearch lib client query with
    | (.error err, ev) =>
      (sendJSONResponse w StatusInternalServerError { Error := "Search failed: " ++ err }, ev)
    | (.ok results, ev) =>
      (sendJSONResponse w StatusOK
        { Message := "Search results for query: '" ++ query ++ "'", Error := results }, ev)

/-! ## Startup -/

/-- What `main` reads from outside: the environment variables and the outcome
of `opensearch.NewClient` for a list of addresses. -/
structure Process where
  environ : List (String × String)
  NewClient : List String → Except String Client

/-- `os.Getenv`: the empty string when the variable is not set. -/
def Getenv (environ : List (String × String)) (key : String) : String :=
  (environ.lookup key).getD ""

/-- The function `main` up to the start of the server: the trace ends with
`fatal` when the process exits in `log.Fatal`, with `listen` when the goroutine
that runs `srv.ListenAndServe()` is started. -/
def main (p : Process) : List Event :=
  let opensearchURL := Getenv p.environ "OPENSEARCH_URL"
  if opensearchURL = "" then
    [Event.fatal "OPENSEARCH_URL environment variable not set"]
  else
    let port := if Getenv p.environ "PORT" = "" then "8070" else Getenv p.environ "PORT"
    match p.NewClient [opensearchURL] with
    | .error err => [Event.fatal ("Failed to create OpenSearch client: " ++ err)]
    | .ok client =>
      match testOpenSearchConnection client with
      | (false, ev) => ev ++ [Event.fatal "Unable to connect to OpenSearch. Exiting."]
      | (true, ev) => ev ++ [Event.listen (":" ++ port)]

/-! ## JSON string literals

The reading of a JSON string literal (RFC 8259, section 7), against which the
request body of `searchOpenSearch` is checked. -/

def hexValue (c : Char) : Option Nat :=
  if '0' ≤ c ∧ c ≤ '9' then some (c.toNat - '0'.toNat)
  else if 'a' ≤ c ∧ c ≤ 'f' then some (c.toNat - 'a'.toNat + 10)
  else if 'A' ≤ c ∧ c ≤ 'F' then some (c.toNat - 'A'.toNat + 10)
  else none

/-- Four hexadecimal digits at the head of the input, as a number. -/
def hex4 : List Char → Option (Nat × List Char)
  | a :: b :: c :: d :: rest =>
    match hexValue a, hexValue b, hexValue c, hexValue d with
    | some a, some b, some c, some d => some (((a * 16 + b) * 16 + c) * 16 + d, rest)
    | _, _, _, _ => none
  | _ => none

/-- The character of a two-character escape. -/
def simpleEscape (e : Char) : Option Char :=
  if e = '"' then some '"'
  else if e = '\\' then some '\\'
  else if e = '/' then some '/'
  else if e = 'b' then some '\x08'
  else if e = 'f' then some '\x0c'
  else if e = 'n' then some '\n'
  else if e = 'r' then some '\r'
  else if e = 't' then some '\t'
  else none

/-- Reads a string literal whose opening quote has been consumed: the decoded
characters up to the closing quote, and the input after it. A raw control
character, an unknown escape and a missing closing quote are errors; a
surrogate escape that is not part of a pair reads as U+FFFD. -/
def scanString : Nat → List Char → Option (List Char × List Char)
  | 0, _ => none
  | _ + 1, [] => none
  | n + 1, c :: rest =>
    if c = '"' then some ([], rest)
    else if c = '\\' then
      match rest with
      | [] => none
      | 'u' :: rest =>
        match hex4 rest with
        | none => none
        | some (hi, rest) =>
          if 0xD800 ≤ hi ∧ hi < 0xDC00 then
            match rest with
            | '\\' :: 'u' :: rest2 =>
              match hex4 rest2 with
              | some (lo, rest3) =>
                if 0xDC00 ≤ lo ∧ lo < 0xE000 then
                  (scanString n rest3).map fun r =>
                    (Char.ofNat (0x10000 + (hi - 0xD800) * 0x400 + (lo - 0xDC00)) :: r.1, r.2)
                else (scanString n rest).map fun r => ('\uFFFD' :: r.1, r.2)
              | none => (scanString n rest).map fun r => ('\uFFFD' :: r.1, r.2)
            | _ => (scanString n rest).map fun r => ('\uFFFD' :: r.1, r.2)
          else if 0xDC00 ≤ hi ∧ hi < 0xE000 then
            (scanString n rest).map fun r => ('\uFFFD' :: r.1, r.2)
          else (scanString n rest).map fun r => (Char.ofNat hi :: r.1, r.2)
      | e :: rest =>
        match simpleEscape e with
        | none => none
        | some d => (scanString n rest).map fun r => (d :: r.1, r.2)
    else if c.toNat < 0x20 then none
    else (scanString n rest).map fun r => (c :: r.1, r.2)

/-- The string that a JSON string literal denotes; `none` when the text is not
one string literal. -/
def decodeStringLiteral (s : String) : Option String :=
  match s.toList with
  | '"' :: rest =>
    match scanString (rest.length + 1) rest with
    | some (cs, []) => some (String.mk cs)
    | _ => none
  | _ => none

/-- The text of the request body before the value of `content`. -/
def bodyPrefix : String :=
  "\x7b\n\t\t\"query\": \x7b\n\t\t\t\"match\": \x7b\n\t\t\t\t\"content\": "

/-- The text of the request body after the value of `content`. -/
def bodySuffix : String :=
  "\n\t\t\t\x7d\n\t\t\x7d\n\t\x7d"

/-- The request body has the shape of the match query on `content` and the
value of `content` is a string literal that denotes `query`. -/
def SafelyEncoded (body query : String) : Prop :=
  ∃ s : String, body = bodyPrefix ++ s ++ bodySuffix ∧ decodeStringLiteral s = some query

/-! ## A backend and a JSON library for worked examples -/

mutual
/-- A decoded JSON document with integral numbers, members in the order in
which `json.Marshal` writes a map (sorted by key). -/
inductive Doc where
  | null
  | bool (b : Bool)
  | number (n : Int)
  | string (s : String)
  | array (items : Items)
  | object (members : Members)
inductive Items where
  | nil
  | cons (d : Doc) (rest : Items)
inductive Members where
  | nil
  | cons (key : String) (d : Doc) (rest : Members)
end

/-- A line break of indented output: newline, the prefix, `depth` indents. -/
def newline (pre ind : String) : Nat → String
  | 0 => "\n" ++ pre
  | depth + 1 => newline pre ind depth ++ ind

mutual
/-- The layout of `json.MarshalIndent`: one member or item per line, a space
after the colon, empty containers closed at once. -/
def render (pre ind : String) (depth : Nat) : Doc → String
  | .null => "null"
  | .bool b => if b then "true" else "false"
  | .number n => toString n
  | .string s => encodeString s
  | .array .nil => "[]"
  | .array (.cons d rest) =>
    "[" ++ newline pre ind (depth + 1) ++ render pre ind (depth + 1) d
      ++ renderItems pre ind (depth + 1) rest ++ newline pre ind depth ++ "]"
  | .object .nil => "\x7b\x7d"
  | .object (.cons k d rest) =>
    "\x7b" ++ newline pre ind (depth + 1) ++ encodeString k ++ ": "
      ++ render pre ind (depth + 1) d ++ renderMembers pre ind (depth + 1) rest
      ++ newline pre ind depth ++ "\x7d"
def renderItems (pre ind : String) (depth : Nat) : Items → String
  | .nil => ""
  | .cons d rest =>
    "," ++ newline pre ind depth ++ render pre ind depth d ++ renderItems pre ind depth rest
def renderMembers (pre ind : String) (depth : Nat) : Members → String
  | .nil => ""
  | .cons k d rest =>
    "," ++ newline pre ind depth ++ encodeString k ++ ": " ++ render pre ind depth d
      ++ renderMembers pre ind depth rest
end

/-- The document `\x7b"hits":\x7b"total":3\x7d\x7d`. -/
def hitsDoc : Doc :=
  .object (.cons "hits" (.object (.cons "total" (.number 3) .nil)) .nil)

/-- A JSON library that knows the document of the worked example and renders
with `render`. -/
def exampleLib : JSONLib Doc where
  Decode := fun body =>
    if body = "\x7b\"hits\":\x7b\"total\":3\x7d\x7d" then .ok hitsDoc
    else .error "unexpected end of JSON input"
  MarshalIndent := fun v pre ind => .ok (render pre ind 0 v)

/-- A backend that answers its fourth info request, finds the example document
for the query "foo", refuses the query "down", answers the query "bad" with
a page that is not JSON, and answers 404 otherwise. -/
def exampleClient : Client where
  Info := fun k => if k = 3 then .response 200 "" else .err "connection refused"
  Search := fun _ body =>
    if body = searchBody "foo" then .response 200 "\x7b\"hits\":\x7b\"total\":3\x7d\x7d"
    else if body = searchBody "down" then .err "connection refused"
    else if body = searchBody "bad" then .response 200 "<html>"
    else .response 404 ""

/-- A backend that never answers. -/
def deadClient : Client where
  Info := fun _ => .err "connection refused"
  Search := fun _ _ => .err "connection refused"

/-- A process started without `OPENSEARCH_URL`. -/
def unsetProcess : Process where
  environ := [("PORT", "9000")]
  NewClient := fun _ => .ok exampleClient

/-- A process whose backend never answers. -/
def deadProcess : Process where
  environ := [("OPENSEARCH_URL", "http://localhost:9200")]
  NewClient := fun _ => .ok deadClient

/-- A process whose backend answers the fourth probe. -/
def exampleProcess : Process where
  environ := [("OPENSEARCH_URL", "http://localhost:9200")]
  NewClient := fun _ => .ok exampleClient

/-! ## Lemmas on the response writer -/

theorem Set_wroteHeader (w : ResponseWriter) (k v : String) :
    (w.Set k v).wroteHeader = w.wroteHeader := rfl

theorem WriteHeader_status_of_wrote (w : ResponseWriter) (code : Int)
    (h : w.wroteHeader = true) : w.WriteHeader code = w := by
  simp [ResponseWriter.WriteHeader, h]

theorem Write_of_wrote (w : ResponseWriter) (data : String) (h : w.wroteHeader = true) :
    (w.Write data).1.status = w.status ∧ (w.Write data).1.sentHeader = w.sentHeader
      ∧ (w.Write data).1.wroteHeader = true := by
  obtain ⟨hd, wh, st, sh, b, errs⟩ := w
  simp only at h
  subst h
  rcases errs with _ | ⟨_ | _, rest⟩ <;>
    simp [ResponseWriter.Write, ResponseWriter.WriteHeader]

/-- The header snapshot taken by `sendJSONResponse` carries the JSON content
type. -/
theorem find_contentType (hd : List (String × String)) (v : String) :
    (((hd.filter fun kv => kv.1 != "Content-Type") ++ [("Content-Type", v)]).find?
      fun kv => kv.1 == "Content-Type").map Prod.snd = some v := by
  rw [List.find?_append]
  have h : ((hd.filter fun kv => kv.1 != "Content-Type").find?
      fun kv => kv.1 == "Content-Type") = none := by
    rw [List.find?_eq_none]
    intro x hx
    have := (List.mem_filter.mp hx).2
    simpa using this
  simp [h]

/-- On a writer that has not sent a header yet, `sendJSONResponse` fixes the
status line to `status` and the content type to `application/json`, whether
or not the encoder's write succeeds. -/
theorem sendJSONResponse_head (w : ResponseWriter) (status : Int) (payload : jsonResponse)
    (h : w.wroteHeader = false) :
    (sendJSONResponse w status payload).status = status
      ∧ (sendJSONResponse w status payload).sent "Content-Type" = some "application/json" := by
  have key : ∀ w0 : ResponseWriter, w0.wroteHeader = true →
      ∀ data,
        (httpError (w0.Write data).1 "\x7b\"error\": \"Internal Server Error\"\x7d"
            StatusInternalServerError).status = w0.status
        ∧ (httpError (w0.Write data).1 "\x7b\"error\": \"Internal Server Error\"\x7d"
            StatusInternalServerError).sentHeader = w0.sentHeader := by
    intro w0 h0 data
    obtain ⟨h1, h2, h3⟩ := Write_of_wrote w0 data h0
    refine ⟨?_, ?_⟩
    · unfold httpError
      simp only
      rw [WriteHeader_status_of_wrote _ _ (by simpa [Set_wroteHeader] using h3)]
      have := Write_of_wrote (((w0.Write data).1.Set "Content-Type" "text/plain; charset=utf-8").Set
        "X-Content-Type-Options" "nosniff") ("\x7b\"error\": \"Internal Server Error\"\x7d" ++ "\n")
        (by simpa [Set_wroteHeader] using h3)
      rw [this.1]
      simpa [ResponseWriter.Set] using h1
    · unfold httpError
      simp only
      rw [WriteHeader_status_of_wrote _ _ (by simpa [Set_wroteHeader] using h3)]
      have := Write_of_wrote (((w0.Write data).1.Set "Content-Type" "text/plain; charset=utf-8").Set
        "X-Content-Type-Options" "nosniff") ("\x7b\"error\": \"Internal Server Error\"\x7d" ++ "\n")
        (by simpa [Set_wroteHeader] using h3)
      rw [this.2.1]
      simpa [ResponseWriter.Set] using h2
  have hw : ((w.Set "Content-Type" "application/json").WriteHeader status).wroteHeader = true := by
    simp [ResponseWriter.WriteHeader, ResponseWriter.Set, h]
  have hs : ((w.Set "Content-Type" "application/json").WriteHeader status).status = status := by
    simp [ResponseWriter.WriteHeader, ResponseWriter.Set, h]
  have hh : ((w.Set "Content-Type" "application/json").WriteHeader status).sentHeader
      = (w.header.filter fun kv => kv.1 != "Content-Type") ++ [("Content-Type", "application/json")] := by
    simp [ResponseWriter.WriteHeader, ResponseWriter.Set, h]
  obtain ⟨k1, k2⟩ := key _ hw (marshalJSONResponse payload ++ "\n")
  obtain ⟨g1, g2, -⟩ := Write_of_wrote _ (marshalJSONResponse payload ++ "\n") hw
  unfold sendJSONResponse Encode
  simp only
  rcases hE : (((w.Set "Content-Type" "application/json").WriteHeader status).Write
    (marshalJSONResponse payload ++ "\n")) with ⟨w1, _ | e⟩
  · rw [hE] at g1 g2
    simp only at g1 g2 ⊢
    refine ⟨by rw [g1, hs], ?_⟩
    unfold ResponseWriter.sent
    rw [g2, hh]
    exact find_contentType _ _
  · rw [hE] at k1 k2
    simp only at k1 k2 ⊢
    refine ⟨by rw [k1, hs], ?_⟩
    unfold ResponseWriter.sent
    rw [k2, hh]
    exact find_contentType _ _

/-- On a writer that has sent nothing yet and accepts the next write, the body
after `sendJSONResponse` is the marshalled payload and a newline. -/
theorem sendJSONResponse_body (w : ResponseWriter) (status : Int) (payload : jsonResponse)
    (hb : w.body = "") (he : w.writeErrs.head? ≠ some true) :
    (sendJSONResponse w status payload).body = marshalJSONResponse payload ++ "\n" := by
  obtain ⟨hd, wh, st, sh, b, errs⟩ := w
  simp only at hb
  subst hb
  rcases errs with _ | ⟨_ | _, rest⟩
  · cases wh <;>
      simp [sendJSONResponse, Encode, ResponseWriter.Write, ResponseWriter.WriteHeader,
        ResponseWriter.Set]
  · cases wh <;>
      simp [sendJSONResponse, Encode, ResponseWriter.Write, ResponseWriter.WriteHeader,
        ResponseWriter.Set]
  · simp at he

/-- The compact text of an object with the single member "message". -/
theorem object_text_message (m : String) :
    "\x7b" ++ ",".intercalate
        ([("message", m)].map fun kv => encodeString kv.1 ++ ":" ++ encodeString kv.2) ++ "\x7d"
      = "\x7b\"message\":" ++ encodeString m ++ "" ++ "\x7d" := by
  have hm : encodeString "message" = "\"message\"" := by decide
  simp only [List.map_cons, List.map_nil, String.intercalate, String.intercalate.go, hm]
  apply String.ext
  simp [String.data_append]

/-- The compact text of an object with the members "message" and "error". -/
theorem object_text_message_error (m e : String) :
    "\x7b" ++ ",".intercalate
        ([("message", m), ("error", e)].map fun kv => encodeString kv.1 ++ ":" ++ encodeString kv.2)
        ++ "\x7d"
      = "\x7b\"message\":" ++ encodeString m ++ (",\"error\":" ++ encodeString e) ++ "\x7d" := by
  have hm : encodeString "message" = "\"message\"" := by decide
  have he : encodeString "error" = "\"error\"" := by decide
  simp only [List.map_cons, List.map_nil, String.intercalate, String.intercalate.go, hm, he]
  apply String.ext
  simp [String.data_append]

theorem append_ne_empty (a b : String) (h : a ≠ "") : a ++ b ≠ "" := by
  intro e
  apply h
  have := congrArg String.data e
  simp only [String.data_append] at this
  exact String.ext (List.append_eq_nil.mp this).1

/-! ## The handlers -/

theorem Get_of_absent (v : Values) (key : String) (h : v.lookup key = none) :
    Values.Get v key = "" := by
  simp [Values.Get, h]

/-- The answer of the search handler to a request without a query. -/
theorem searchHandler_of_empty {Doc : Type} (lib : JSONLib Doc) (client : Client)
    (w : ResponseWriter) (urlQuery : Values)
    (h : urlQuery.lookup "q" = none ∨ Values.Get urlQuery "q" = "") :
    searchHandler lib client w urlQuery
      = (sendJSONResponse w 400 { Message := "", Error := "Query parameter 'q' is required" }, []) := by
  have hq : Values.Get urlQuery "q" = "" := h.elim (Get_of_absent _ _) id
  simp [searchHandler, hq, StatusBadRequest]

/-- C1. A `GET /search` request whose parameter `q` is absent or empty is
answered with status 400 and the envelope with the error text
"Query parameter 'q' is required", whatever the backend would do, and no
backend call is made. -/
theorem search_without_query {Doc : Type} (lib : JSONLib Doc) (client : Client)
    (w : ResponseWriter) (urlQuery : Values)
    (h : urlQuery.lookup "q" = none ∨ Values.Get urlQuery "q" = "") :
    searchHandler lib client w urlQuery
        = (sendJSONResponse w 400 { Message := "", Error := "Query parameter 'q' is required" }, [])
      ∧ (w.wroteHeader = false → (searchHandler lib client w urlQuery).1.status = 400)
      ∧ (searchHandler lib client w urlQuery).2 = [] := by
  have e := searchHandler_of_empty lib client w urlQuery h
  refine ⟨e, fun hw => ?_, by rw [e]⟩
  rw [e]
  exact (sendJSONResponse_head w 400 _ hw).1

theorem search_without_query_witness :
    ((List.lookup "q" ([("page", ["2"])] : Values) = none
        ∨ Values.Get [("page", ["2"])] "q" = ""))
      ∧ (searchHandler exampleLib exampleClient {} [("page", ["2"])]
          = (sendJSONResponse {} 400
              { Message := "", Error := "Query parameter 'q' is required" }, [])
        ∧ ((({} : ResponseWriter).wroteHeader = false) →
            (searchHandler exampleLib exampleClient {} [("page", ["2"])]).1.status = 400)
        ∧ (searchHandler exampleLib exampleClient {} [("page", ["2"])]).2 = []) :=
  ⟨Or.inl (by decide),
    search_without_query exampleLib exampleClient {} [("page", ["2"])] (Or.inl (by decide))⟩

/-- What `searchOpenSearch` returns and does, case by case. -/
theorem searchOpenSearch_cases {Doc : Type} (lib : JSONLib Doc) (client : Client) (q : String) :
    (searchOpenSearch lib client q).2 = [Event.search "documents" (searchBody q)]
      ∧ (∀ e, client.Search "documents" (searchBody q) = .err e →
          (searchOpenSearch lib client q).1 = .error e)
      ∧ (∀ c b, client.Search "documents" (searchBody q) = .response c b → c ≠ 200 →
          (searchOpenSearch lib client q).1 = .error ("unexpected response code: " ++ toString c))
      ∧ (∀ b e, client.Search "documents" (searchBody q) = .response 200 b →
          lib.Decode b = .error e →
          (searchOpenSearch lib client q).1 = .error ("failed to parse response: " ++ e))
      ∧ (∀ b v s, client.Search "documents" (searchBody q) = .response 200 b →
          lib.Decode b = .ok v → lib.MarshalIndent v "" "  " = .ok s →
          (searchOpenSearch lib client q).1 = .ok s)
      ∧ (∀ s, (searchOpenSearch lib client q).1 = .ok s →
          ∃ b v, client.Search "documents" (searchBody q) = .response 200 b
            ∧ lib.Decode b = .ok v) := by
  unfold searchOpenSearch
  simp only
  rcases hS : client.Search "documents" (searchBody q) with e | ⟨c, b⟩
  · simp
  · by_cases hc : c = 200
    · subst hc
      rcases hD : lib.Decode b with e | v
      · simp only [StatusOK, hD, ne_eq, not_true_eq_false, if_false]
        refine ⟨trivial, by simp, by simp, ?_, ?_, by simp⟩
        · intro b1 e1 hb he
          cases hb
          rw [hD] at he
          cases he
          simp
        · intro b1 v1 s1 hb hv
          cases hb
          rw [hD] at hv
          cases hv
      · have hsome : ∃ b1 v1, CallResult.response 200 b = CallResult.response 200 b1
            ∧ lib.Decode b1 = Except.ok v1 := ⟨b, v, rfl, hD⟩
        rcases hM : lib.MarshalIndent v "" "  " with e | s
        · simp only [StatusOK, hD, hM, ne_eq, not_true_eq_false, if_false]
          refine ⟨trivial, by simp, by simp, ?_, ?_, fun _ _ => hsome⟩
          · intro b1 e1 hb he
            cases hb
            rw [hD] at he
            cases he
          · intro b1 v1 s1 hb hv hs
            cases hb
            rw [hD] at hv
            cases hv
            rw [hM] at hs
            cases hs
        · simp only [StatusOK, hD, hM, ne_eq, not_true_eq_false, if_false]
          refine ⟨trivial, by simp, by simp, ?_, ?_, fun _ _ => hsome⟩
          · intro b1 e1 hb he
            cases hb
            rw [hD] at he
            cases he
          · intro b1 v1 s1 hb hv hs
            cases hb
            rw [hD] at hv
            cases hv
            rw [hM] at hs
            cases hs
            simp
    · simp [StatusOK, hc]

/-- C2. For a non-empty query `q` and a backend answer with status 200 whose
body decodes to a document `v`, the search handler answers with status 200,
the message "Search results for query: 'q'" and, in the error field, the
rendering of `v` by `json.MarshalIndent` with an empty prefix and an indent
of two spaces; the one backend call made is the search on "documents". On a
writer that accepts the write the body that reaches the client is the JSON
object with that message and that rendering as its "error" member, closed by
the newline of the encoder. -/
theorem search_success {Doc : Type} (lib : JSONLib Doc) (client : Client)
    (w : ResponseWriter) (urlQuery : Values) (body : String) (v : Doc) (s : String)
    (hq : Values.Get urlQuery "q" ≠ "")
    (hres : client.Search "documents" (searchBody (Values.Get urlQuery "q")) = .response 200 body)
    (hdec : lib.Decode body = .ok v)
    (hind : lib.MarshalIndent v "" "  " = .ok s) :
    searchHandler lib client w urlQuery
        = (sendJSONResponse w 200
            { Message := "Search results for query: '" ++ Values.Get urlQuery "q" ++ "'",
              Error := s },
           [Event.search "documents" (searchBody (Values.Get urlQuery "q"))])
      ∧ (w.wroteHeader = false → (searchHandler lib client w urlQuery).1.status = 200)
      ∧ (w.wroteHeader = false →
          (searchHandler lib client w urlQuery).1.sent "Content-Type" = some "application/json")
      ∧ (w.body = "" → w.writeErrs.head? ≠ some true →
          (searchHandler lib client w urlQuery).1.body
            = "\x7b\"message\":"
                ++ encodeString ("Search results for query: '" ++ Values.Get urlQuery "q" ++ "'")
                ++ (if s = "" then "" else ",\"error\":" ++ encodeString s) ++ "\x7d" ++ "\n") := by
  obtain ⟨hev, -, -, -, hok, -⟩ := searchOpenSearch_cases lib client (Values.Get urlQuery "q")
  have h1 := hok body v s hres hdec hind
  have e : searchHandler lib client w urlQuery
      = (sendJSONResponse w 200
          { Message := "Search results for query: '" ++ Values.Get urlQuery "q" ++ "'",
            Error := s },
         [Event.search "documents" (searchBody (Values.Get urlQuery "q"))]) := by
    unfold searchHandler
    simp only [hq, if_false]
    rcases hR : searchOpenSearch lib client (Values.Get urlQuery "q") with ⟨r, ev⟩
    rw [hR] at h1 hev
    simp only at h1 hev
    subst h1 hev
    simp [StatusOK]
  refine ⟨e, fun hw => ?_, fun hw => ?_, fun hb he => ?_⟩
  · rw [e]
    exact (sendJSONResponse_head w 200 _ hw).1
  · rw [e]
    exact (sendJSONResponse_head w 200 _ hw).2
  · rw [e]
    simp only
    rw [sendJSONResponse_body w 200 _ hb he]
    unfold marshalJSONResponse jsonResponse.members
    by_cases hs : s = ""
    · simp only [hs, if_true, List.append_nil]
      rw [object_text_message]
    · simp only [hs, if_false, List.singleton_append]
      rw [object_text_message_error]

theorem search_success_witness :
    Values.Get [("q", ["foo"])] "q" ≠ ""
      ∧ exampleClient.Search "documents" (searchBody (Values.Get [("q", ["foo"])] "q"))
          = .response 200 "\x7b\"hits\":\x7b\"total\":3\x7d\x7d"
      ∧ exampleLib.Decode "\x7b\"hits\":\x7b\"total\":3\x7d\x7d" = .ok hitsDoc
      ∧ exampleLib.MarshalIndent hitsDoc "" "  "
          = .ok "\x7b\n  \"hits\": \x7b\n    \"total\": 3\n  \x7d\n\x7d"
      ∧ ({} : ResponseWriter).wroteHeader = false
      ∧ ({} : ResponseWriter).body = ""
      ∧ ({} : ResponseWriter).writeErrs.head? ≠ some true
      ∧ (searchHandler exampleLib exampleClient {} [("q", ["foo"])]).2
          = [Event.search "documents" (searchBody "foo")]
      ∧ (searchHandler exampleLib exampleClient {} [("q", ["foo"])]).1.status = 200
      ∧ (searchHandler exampleLib exampleClient {} [("q", ["foo"])]).1.sent "Content-Type"
          = some "application/json"
      ∧ (searchHandler exampleLib exampleClient {} [("q", ["foo"])]).1.body
          = "\x7b\"message\":\"Search results for query: 'foo'\",\"error\":\"\x7b\\n  \\\"hits\\\": \x7b\\n    \\\"total\\\": 3\\n  \x7d\\n\x7d\"\x7d\n" :=
  ⟨by decide, by decide, rfl, congrArg Except.ok (by decide), rfl, rfl, by decide,
    congrArg Prod.snd (search_success exampleLib exampleClient {} [("q", ["foo"])]
      "\x7b\"hits\":\x7b\"total\":3\x7d\x7d" hitsDoc
      "\x7b\n  \"hits\": \x7b\n    \"total\": 3\n  \x7d\n\x7d"
      (by decide) (by decide) rfl (congrArg Except.ok (by decide))).1,
    (search_success exampleLib exampleClient {} [("q", ["foo"])]
      "\x7b\"hits\":\x7b\"total\":3\x7d\x7d" hitsDoc
      "\x7b\n  \"hits\": \x7b\n    \"total\": 3\n  \x7d\n\x7d"
      (by decide) (by decide) rfl (congrArg Except.ok (by decide))).2.1 rfl,
    (search_success exampleLib exampleClient {} [("q", ["foo"])]
      "\x7b\"hits\":\x7b\"total\":3\x7d\x7d" hitsDoc
      "\x7b\n  \"hits\": \x7b\n    \"total\": 3\n  \x7d\n\x7d"
      (by decide) (by decide) rfl (congrArg Except.ok (by decide))).2.2.1 rfl,
    (search_success exampleLib exampleClient {} [("q", ["foo"])]
      "\x7b\"hits\":\x7b\"total\":3\x7d\x7d" hitsDoc
      "\x7b\n  \"hits\": \x7b\n    \"total\": 3\n  \x7d\n\x7d"
      (by decide) (by decide) rfl (congrArg Except.ok (by decide))).2.2.2 rfl (by decide)⟩

/-- The answer of the search handler once `searchOpenSearch` has failed. -/
theorem searchHandler_of_error {Doc : Type} (lib : JSONLib Doc) (client : Client)
    (w : ResponseWriter) (urlQuery : Values) (cause : String)
    (hq : Values.Get urlQuery "q" ≠ "")
    (h : (searchOpenSearch lib client (Values.Get urlQuery "q")).1 = .error cause) :
    (searchHandler lib client w urlQuery).1
      = sendJSONResponse w 500 { Message := "", Error := "Search failed: " ++ cause } := by
  unfold searchHandler
  simp only [hq, if_false]
  rcases hR : searchOpenSearch lib client (Values.Get urlQuery "q") with ⟨r, ev⟩
  rw [hR] at h
  simp only at h
  subst h
  simp [StatusInternalServerError]

/-- The status of the search handler's answer tells whether `searchOpenSearch`
returned an error. -/
theorem searchHandler_status {Doc : Type} (lib : JSONLib Doc) (client : Client)
    (w : ResponseWriter) (urlQuery : Values)
    (hq : Values.Get urlQuery "q" ≠ "") (hw : w.wroteHeader = false) :
    (∀ cause, (searchOpenSearch lib client (Values.Get urlQuery "q")).1 = .error cause →
        (searchHandler lib client w urlQuery).1.status = 500)
      ∧ (∀ s, (searchOpenSearch lib client (Values.Get urlQuery "q")).1 = .ok s →
        (searchHandler lib client w urlQuery).1.status = 200) := by
  constructor
  · intro cause h
    rw [searchHandler_of_error lib client w urlQuery cause hq h]
    exact (sendJSONResponse_head w 500 _ hw).1
  · intro s h
    unfold searchHandler
    simp only [hq, if_false]
    rcases hR : searchOpenSearch lib client (Values.Get urlQuery "q") with ⟨r, ev⟩
    rw [hR] at h
    simp only at h
    subst h
    exact (sendJSONResponse_head w 200 _ hw).1

/-- C3. For a non-empty query: a transport error, a status other than 200 and
an undecodable body each make `searchOpenSearch` return an error, with the
cause texts of the source; whenever `searchOpenSearch` returns an error the
handler answers 500 with the error "Search failed: " followed by the cause,
which for a status `c` other than 200 is "Search failed: unexpected response
code: " followed by `c` in decimal, and on a writer that accepts the write
the body that reaches the client is the JSON object with an empty "message"
and that text as its "error" member, closed by the newline of the encoder;
and the answer has status 200 only if the backend answered 200 with a body
that decodes. -/
theorem search_failure {Doc : Type} (lib : JSONLib Doc) (client : Client)
    (w : ResponseWriter) (urlQuery : Values)
    (hq : Values.Get urlQuery "q" ≠ "") :
    (∀ e, client.Search "documents" (searchBody (Values.Get urlQuery "q")) = .err e →
        (searchOpenSearch lib client (Values.Get urlQuery "q")).1 = .error e)
      ∧ (∀ c b, client.Search "documents" (searchBody (Values.Get urlQuery "q")) = .response c b →
          c ≠ 200 →
          (searchOpenSearch lib client (Values.Get urlQuery "q")).1
              = .error ("unexpected response code: " ++ toString c)
            ∧ (searchHandler lib client w urlQuery).1
              = sendJSONResponse w 500
                  { Message := "",
                    Error := "Search failed: unexpected response code: " ++ toString c }
            ∧ (w.body = "" → w.writeErrs.head? ≠ some true →
                (searchHandler lib client w urlQuery).1.body
                  = "\x7b\"message\":\"\",\"error\":"
                      ++ encodeString ("Search failed: unexpected response code: " ++ toString c)
                      ++ "\x7d" ++ "\n"))
      ∧ (∀ b e, client.Search "documents" (searchBody (Values.Get urlQuery "q")) = .response 200 b →
          lib.Decode b = .error e →
          (searchOpenSearch lib client (Values.Get urlQuery "q")).1
            = .error ("failed to parse response: " ++ e))
      ∧ (∀ cause, (searchOpenSearch lib client (Values.Get urlQuery "q")).1 = .error cause →
          (searchHandler lib client w urlQuery).1
              = sendJSONResponse w 500 { Message := "", Error := "Search failed: " ++ cause }
            ∧ (w.wroteHeader = false → (searchHandler lib client w urlQuery).1.status = 500)
            ∧ (w.wroteHeader = false →
                (searchHandler lib client w urlQuery).1.sent "Content-Type"
                  = some "application/json")
            ∧ (w.body = "" → w.writeErrs.head? ≠ some true →
                (searchHandler lib client w urlQuery).1.body
                  = "\x7b\"message\":\"\",\"error\":"
                      ++ encodeString ("Search failed: " ++ cause) ++ "\x7d" ++ "\n"))
      ∧ (w.wroteHeader = false → (searchHandler lib client w urlQuery).1.status = 200 →
          ∃ b v, client.Search "documents" (searchBody (Values.Get urlQuery "q")) = .response 200 b
            ∧ lib.Decode b = .ok v) := by
  obtain ⟨-, herr, hcode, hdec, -, hok⟩ := searchOpenSearch_cases lib client (Values.Get urlQuery "q")
  have hassoc : ∀ c : Int, "Search failed: " ++ ("unexpected response code: " ++ toString c)
      = "Search failed: unexpected response code: " ++ toString c := by
    intro c
    rw [← String.append_assoc]
    rfl
  have hbody : ∀ cause, (searchOpenSearch lib client (Values.Get urlQuery "q")).1 = .error cause →
      w.body = "" → w.writeErrs.head? ≠ some true →
      (searchHandler lib client w urlQuery).1.body
        = "\x7b\"message\":\"\",\"error\":" ++ encodeString ("Search failed: " ++ cause)
            ++ "\x7d" ++ "\n" := by
    intro cause h hb he
    have hne : "Search failed: " ++ cause ≠ "" := append_ne_empty _ _ (by decide)
    have hm : encodeString "" = "\"\"" := by decide
    rw [searchHandler_of_error lib client w urlQuery cause hq h,
      sendJSONResponse_body w 500 _ hb he]
    unfold marshalJSONResponse jsonResponse.members
    simp only [hne, if_false, List.singleton_append]
    rw [object_text_message_error, hm]
    apply String.ext
    simp [String.data_append]
  refine ⟨herr, ?_, hdec, ?_, ?_⟩
  · intro c b hS hc
    have h := hcode c b hS hc
    refine ⟨h, ?_, fun hb he => ?_⟩
    · rw [searchHandler_of_error lib client w urlQuery _ hq h, hassoc]
    · rw [hbody _ h hb he, hassoc]
  · intro cause h
    refine ⟨searchHandler_of_error lib client w urlQuery cause hq h,
      fun hw => (searchHandler_status lib client w urlQuery hq hw).1 cause h,
      fun hw => ?_,
      fun hb he => hbody cause h hb he⟩
    rw [searchHandler_of_error lib client w urlQuery cause hq h]
    exact (sendJSONResponse_head w 500 _ hw).2
  · intro hw hst
    rcases hR : (searchOpenSearch lib client (Values.Get urlQuery "q")).1 with cause | s
    · have := (searchHandler_status lib client w urlQuery hq hw).1 cause hR
      rw [this] at hst
      exact absurd hst (by decide)
    · exact hok s hR

theorem search_failure_witness :
    Values.Get [("q", ["missing"])] "q" ≠ ""
      ∧ exampleClient.Search "documents" (searchBody (Values.Get [("q", ["missing"])] "q"))
          = .response 404 ""
      ∧ ({} : ResponseWriter).body = ""
      ∧ ({} : ResponseWriter).writeErrs.head? ≠ some true
      ∧ (searchHandler exampleLib exampleClient {} [("q", ["missing"])]).1
          = sendJSONResponse {} 500
              { Message := "", Error := "Search failed: unexpected response code: 404" }
      ∧ (searchHandler exampleLib exampleClient {} [("q", ["missing"])]).1.status = 500
      ∧ (searchHandler exampleLib exampleClient {} [("q", ["missing"])]).1.body
          = "\x7b\"message\":\"\",\"error\":\"Search failed: unexpected response code: 404\"\x7d\n" :=
  ⟨by decide, by decide, rfl, by decide,
    ((search_failure exampleLib exampleClient {} [("q", ["missing"])] (by decide)).2.1
      404 "" (by decide) (by decide)).2.1,
    ((search_failure exampleLib exampleClient {} [("q", ["missing"])] (by decide)).2.2.2.1
      "unexpected response code: 404"
      (((search_failure exampleLib exampleClient {} [("q", ["missing"])] (by decide)).2.1
        404 "" (by decide) (by decide)).1)).2.1 rfl,
    ((search_failure exampleLib exampleClient {} [("q", ["missing"])] (by decide)).2.1
      404 "" (by decide) (by decide)).2.2 rfl (by decide)⟩

/-! ## The request body of `searchOpenSearch` -/

/-- The text between the fixed parts of a body is determined by the body. -/
theorem body_value_unique (s t : String)
    (h : bodyPrefix ++ s ++ bodySuffix = bodyPrefix ++ t ++ bodySuffix) : s = t := by
  have h1 := congrArg String.data h
  simp only [String.data_append] at h1
  exact String.ext (List.append_cancel_left (List.append_cancel_right h1))

/-- C5, at the query that consists of one double quote. The body sent is the
template with three double quotes in a row as the value of `content`: that
text is not a string literal, so the body is not the match query with a
literal that denotes the query. A query can also close the literal and the
object and add a member of its own. The request does go to "documents". -/
theorem searchBody_not_escaped :
    searchBody "\"" = bodyPrefix ++ "\"\"\"" ++ bodySuffix
      ∧ decodeStringLiteral "\"\"\"" = none
      ∧ ¬ SafelyEncoded (searchBody "\"") "\""
      ∧ searchBody "x\"\x7d,\"extra\":\x7b\"k\":\"v"
          = bodyPrefix ++ "\"x\"\x7d,\"extra\":\x7b\"k\":\"v\"" ++ bodySuffix
      ∧ (searchOpenSearch exampleLib exampleClient "\"").2
          = [Event.search "documents" (searchBody "\"")] := by
  refine ⟨by decide, by decide, ?_, by decide, rfl⟩
  rintro ⟨s, hs, hd⟩
  have e : searchBody "\"" = bodyPrefix ++ "\"\"\"" ++ bodySuffix := by decide
  rw [e] at hs
  have := body_value_unique _ _ hs
  subst this
  revert hd
  decide

/-! ## The bodies that `sendJSONResponse` writes -/

/-- C6, as the code has it. For a request without `q` the body written to a
writer that has sent nothing yet and accepts the write is the JSON object with
the member "message", whose value is the empty string, and the member "error"
with the text "Query parameter 'q' is required", followed by a newline. -/
theorem missing_query_body {Doc : Type} (lib : JSONLib Doc) (client : Client)
    (w : ResponseWriter) (urlQuery : Values)
    (h : urlQuery.lookup "q" = none ∨ Values.Get urlQuery "q" = "")
    (hb : w.body = "") (he : w.writeErrs.head? ≠ some true) :
    (searchHandler lib client w urlQuery).1.body
        = "\x7b\"message\":\"\",\"error\":\"Query parameter 'q' is required\"\x7d\n"
      ∧ jsonResponse.members { Message := "", Error := "Query parameter 'q' is required" }
        = [("message", ""), ("error", "Query parameter 'q' is required")] := by
  refine ⟨?_, by decide⟩
  rw [searchHandler_of_empty lib client w urlQuery h]
  simp only
  rw [sendJSONResponse_body w 400 _ hb he]
  decide

theorem missing_query_body_witness :
    (List.lookup "q" ([] : Values) = none ∨ Values.Get [] "q" = "")
      ∧ ({} : ResponseWriter).body = ""
      ∧ ({} : ResponseWriter).writeErrs.head? ≠ some true
      ∧ (searchHandler exampleLib exampleClient {} []).1.body
          = "\x7b\"message\":\"\",\"error\":\"Query parameter 'q' is required\"\x7d\n"
      ∧ jsonResponse.members { Message := "", Error := "Query parameter 'q' is required" }
          = [("message", ""), ("error", "Query parameter 'q' is required")] :=
  ⟨Or.inl (by decide), rfl, by decide,
    missing_query_body exampleLib exampleClient {} [] (Or.inl (by decide)) rfl (by decide)⟩

/-- C6, as the claim has it, fails: the body of the answer to a request
without `q` is not the object with the single member "error", with or without
a final newline; the envelope is written with a "message" member as well. -/
theorem missing_query_body_not_error_only :
    (searchHandler exampleLib exampleClient {} []).1.body
        ≠ "\x7b\"error\":\"Query parameter 'q' is required\"\x7d"
      ∧ (searchHandler exampleLib exampleClient {} []).1.body
        ≠ "\x7b\"error\":\"Query parameter 'q' is required\"\x7d\n"
      ∧ (jsonResponse.members { Message := "", Error := "Query parameter 'q' is required" }).map
          Prod.fst ≠ ["error"]
      ∧ "message" ∈ (jsonResponse.members
          { Message := "", Error := "Query parameter 'q' is required" }).map Prod.fst := by
  decide

/-- C7. `GET /health` is answered with status 200 and content type
`application/json`; on a writer that accepts the write the body is the JSON
object with the single member "message": "API is healthy" (no "error" member),
closed by the newline of the encoder; the handler makes no backend call, and
does not depend on the backend at all. -/
theorem health_response (w : ResponseWriter) (hw : w.wroteHeader = false)
    (hb : w.body = "") (he : w.writeErrs.head? ≠ some true) :
    (healthHandler w).1.status = 200
      ∧ (healthHandler w).1.sent "Content-Type" = some "application/json"
      ∧ (healthHandler w).1.body = "\x7b\"message\":\"API is healthy\"\x7d" ++ "\n"
      ∧ jsonResponse.members { Message := "API is healthy" } = [("message", "API is healthy")]
      ∧ (healthHandler w).2 = [] := by
  refine ⟨(sendJSONResponse_head w 200 _ hw).1, (sendJSONResponse_head w 200 _ hw).2, ?_,
    by decide, rfl⟩
  show (sendJSONResponse w StatusOK { Message := "API is healthy" }).body = _
  rw [sendJSONResponse_body w _ _ hb he]
  decide

theorem health_response_witness :
    ({} : ResponseWriter).wroteHeader = false
      ∧ ({} : ResponseWriter).body = ""
      ∧ ({} : ResponseWriter).writeErrs.head? ≠ some true
      ∧ (healthHandler {}).1.status = 200
      ∧ (healthHandler {}).1.sent "Content-Type" = some "application/json"
      ∧ (healthHandler {}).1.body = "\x7b\"message\":\"API is healthy\"\x7d" ++ "\n"
      ∧ jsonResponse.members { Message := "API is healthy" } = [("message", "API is healthy")]
      ∧ (healthHandler {}).2 = [] :=
  ⟨rfl, rfl, by decide, health_response {} rfl rfl (by decide)⟩

/-- C9, at a writer whose first write fails. `sendJSONResponse` called with
status 200 has sent the status line before the encoder runs, so the status
500 of the fallback is ignored: the response keeps status 200 and the JSON
content type, and the literal text and a newline are what is written. -/
theorem sendJSONResponse_fallback_keeps_status :
    (sendJSONResponse { writeErrs := [true] } 200 { Message := "API is healthy" }).status = 200
      ∧ (sendJSONResponse { writeErrs := [true] } 200 { Message := "API is healthy" }).status ≠ 500
      ∧ (sendJSONResponse { writeErrs := [true] } 200 { Message := "API is healthy" }).sent
          "Content-Type" = some "application/json"
      ∧ (sendJSONResponse { writeErrs := [true] } 200 { Message := "API is healthy" }).body
          = "\x7b\"error\": \"Internal Server Error\"\x7d\n" := by
  decide

/-! ## The readiness prober -/

theorem ok_iff (r : CallResult) : r.ok = true ↔ ∃ b, r = .response 200 b := by
  cases r with
  | err e => simp [CallResult.ok]
  | response c b => simp [CallResult.ok, StatusOK]

theorem testLoop_fail (client : Client) (i n : Nat) (h : (client.Info i).ok = false) :
    testLoop client i (n + 1)
      = ((testLoop client (i + 1) n).1,
          Event.sleep (backoff i) :: Event.info :: (testLoop client (i + 1) n).2) := by
  rw [testLoop]
  cases hI : client.Info i with
  | err e => rfl
  | response c b =>
    have hc : c ≠ StatusOK := by simpa [hI, CallResult.ok] using h
    simp [hc]

theorem testLoop_ok (client : Client) (i n : Nat) (h : (client.Info i).ok = true) :
    testLoop client i (n + 1) = (true, [Event.sleep (backoff i), Event.info]) := by
  rw [testLoop]
  cases hI : client.Info i with
  | err e => simp [hI, CallResult.ok] at h
  | response c b =>
    have hc : c = StatusOK := by simpa [hI, CallResult.ok] using h
    simp [hc]

theorem probes_cons (d : Nat) (ev : List Event) :
    probes (Event.sleep d :: Event.info :: ev) = probes ev + 1 := by
  simp [probes]

theorem sleeps_cons (d : Nat) (ev : List Event) :
    sleeps (Event.sleep d :: Event.info :: ev) = d :: sleeps ev := by
  simp [sleeps]

/-- The loop issues one probe per iteration and stops at the first success. -/
theorem testLoop_first (client : Client) (n : Nat) :
    ∀ i k, k < n → (client.Info (i + k)).ok = true →
      (∀ j, j < k → (client.Info (i + j)).ok = false) →
      (testLoop client i n).1 = true ∧ probes (testLoop client i n).2 = k + 1 := by
  induction n with
  | zero => intro i k hk; omega
  | succ n ih =>
    intro i k hk hok hbefore
    cases k with
    | zero =>
      rw [testLoop_ok client i n (by simpa using hok)]
      exact ⟨rfl, by simp [probes]⟩
    | succ k =>
      have h0 : (client.Info i).ok = false := by simpa using hbefore 0 (by omega)
      rw [testLoop_fail client i n h0]
      have := ih (i + 1) k (by omega) (by rw [← hok]; congr 2; omega)
        (fun j hj => by rw [← hbefore (j + 1) (by omega)]; congr 2; omega)
      exact ⟨this.1, by rw [probes_cons, this.2]⟩

/-- When every probe fails the loop runs all its iterations. -/
theorem testLoop_all_fail (client : Client) (n : Nat) :
    ∀ i, (∀ k, k < n → (client.Info (i + k)).ok = false) →
      (testLoop client i n).1 = false ∧ probes (testLoop client i n).2 = n
        ∧ sleeps (testLoop client i n).2 = (List.range n).map fun j => backoff (i + j) := by
  induction n with
  | zero => intro i _; simp [testLoop, probes, sleeps]
  | succ n ih =>
    intro i hall
    have h0 : (client.Info i).ok = false := by simpa using hall 0 (by omega)
    rw [testLoop_fail client i n h0]
    obtain ⟨h1, h2, h3⟩ := ih (i + 1)
      (fun k hk => by rw [← hall (k + 1) (by omega)]; congr 2; omega)
    refine ⟨h1, by rw [probes_cons, h2], ?_⟩
    rw [sleeps_cons, h3, List.range_succ_eq_map]
    simp only [List.map_cons, List.map_map, Nat.add_zero]
    apply congrArg (List.cons (backoff i))
    apply List.map_congr_left
    intro j _
    simp only [Function.comp]
    rw [show i + 1 + j = i + (j + 1) from by omega]

/-- A success within the iterations left is what makes the loop return true. -/
theorem testLoop_true_iff (client : Client) (n : Nat) :
    ∀ i, (testLoop client i n).1 = true ↔ ∃ k, k < n ∧ (client.Info (i + k)).ok = true := by
  induction n with
  | zero => intro i; simp [testLoop]
  | succ n ih =>
    intro i
    cases h0 : (client.Info i).ok with
    | true =>
      rw [testLoop_ok client i n h0]
      exact ⟨fun _ => ⟨0, by omega, by simpa using h0⟩, fun _ => rfl⟩
    | false =>
      rw [testLoop_fail client i n h0]
      simp only
      rw [ih (i + 1)]
      constructor
      · rintro ⟨k, hk, hok⟩
        exact ⟨k + 1, by omega, by rw [← hok]; congr 2; omega⟩
      · rintro ⟨k, hk, hok⟩
        cases k with
        | zero => simp [h0] at hok
        | succ k => exact ⟨k, by omega, by rw [← hok]; congr 2; omega⟩

theorem probes_testLoop_le (client : Client) (n : Nat) :
    ∀ i, probes (testLoop client i n).2 ≤ n := by
  induction n with
  | zero => intro i; simp [testLoop, probes]
  | succ n ih =>
    intro i
    cases h0 : (client.Info i).ok with
    | true =>
      rw [testLoop_ok client i n h0]
      simp [probes]
    | false =>
      rw [testLoop_fail client i n h0, probes_cons]
      exact Nat.succ_le_succ (ih (i + 1))

/-- The sleeps of the loop are the backoffs of its iterations, in order. -/
theorem sleeps_testLoop (client : Client) (n : Nat) :
    ∀ i, sleeps (testLoop client i n).2
      = (List.range (probes (testLoop client i n).2)).map fun j => backoff (i + j) := by
  induction n with
  | zero => intro i; simp [testLoop, probes, sleeps]
  | succ n ih =>
    intro i
    cases h0 : (client.Info i).ok with
    | true =>
      rw [testLoop_ok client i n h0]
      simp [probes, sleeps, List.range_succ]
    | false =>
      rw [testLoop_fail client i n h0, probes_cons, sleeps_cons, ih (i + 1),
        List.range_succ_eq_map]
      simp only [List.map_cons, List.map_map, Nat.add_zero]
      apply congrArg (List.cons (backoff i))
      apply List.map_congr_left
      intro j _
      simp only [Function.comp]
      rw [show i + 1 + j = i + (j + 1) from by omega]

/-- The loop only sleeps and probes. -/
theorem testLoop_events (client : Client) (n : Nat) :
    ∀ i e, e ∈ (testLoop client i n).2 → e = Event.info ∨ ∃ d, e = Event.sleep d := by
  induction n with
  | zero => intro i e he; simp [testLoop] at he
  | succ n ih =>
    intro i e he
    cases h0 : (client.Info i).ok with
    | true =>
      rw [testLoop_ok client i n h0] at he
      simp only [List.mem_cons, List.mem_singleton] at he
      rcases he with h | h | h
      · exact Or.inr ⟨_, h⟩
      · exact Or.inl h
      · simp at h
    | false =>
      rw [testLoop_fail client i n h0] at he
      simp only [List.mem_cons] at he
      rcases he with h | h | h
      · exact Or.inr ⟨_, h⟩
      · exact Or.inl h
      · exact ih (i + 1) e h

/-- C4. `testOpenSearchConnection` issues at most 10 info probes; a probe
counts as a success exactly when it returns no error and status 200; the
function returns true if and only if one of the first 10 probes is a success,
and then it has issued the probes up to the first success and no more; when
all 10 probes fail it returns false after exactly 10 probes. -/
theorem testOpenSearchConnection_probes (client : Client) :
    probes (testOpenSearchConnection client).2 ≤ 10
      ∧ (∀ r : CallResult, r.ok = true ↔ ∃ b, r = .response 200 b)
      ∧ ((testOpenSearchConnection client).1 = true
          ↔ ∃ k, k < 10 ∧ (client.Info k).ok = true)
      ∧ (∀ k, k < 10 → (client.Info k).ok = true →
          (∀ j, j < k → (client.Info j).ok = false) →
          (testOpenSearchConnection client).1 = true
            ∧ probes (testOpenSearchConnection client).2 = k + 1)
      ∧ ((∀ k, k < 10 → (client.Info k).ok = false) →
          (testOpenSearchConnection client).1 = false
            ∧ probes (testOpenSearchConnection client).2 = 10) := by
  refine ⟨probes_testLoop_le client 10 0, ok_iff, ?_, ?_, ?_⟩
  · have := testLoop_true_iff client 10 0
    simpa [testOpenSearchConnection] using this
  · intro k hk hok hbefore
    exact testLoop_first client 10 0 k hk (by simpa using hok)
      (fun j hj => by simpa using hbefore j hj)
  · intro hall
    have := testLoop_all_fail client 10 0 (fun k hk => by simpa using hall k hk)
    exact ⟨this.1, this.2.1⟩

theorem testOpenSearchConnection_probes_witness :
    (3 < 10 ∧ (exampleClient.Info 3).ok = true
        ∧ (∀ j, j < 3 → (exampleClient.Info j).ok = false)
        ∧ (testOpenSearchConnection exampleClient).1 = true
        ∧ probes (testOpenSearchConnection exampleClient).2 = 3 + 1)
      ∧ ((∀ k, k < 10 → (deadClient.Info k).ok = false)
        ∧ (testOpenSearchConnection deadClient).1 = false
        ∧ probes (testOpenSearchConnection deadClient).2 = 10) :=
  ⟨⟨by decide, by decide, by decide,
      (testOpenSearchConnection_probes exampleClient).2.2.2.1 3 (by decide) (by decide)
        (by decide)⟩,
    ⟨fun _ _ => rfl,
      (testOpenSearchConnection_probes deadClient).2.2.2.2 (fun _ _ => rfl)⟩⟩

theorem backoff_eq (i : Nat) : backoff i = (i + 2) * Second := rfl

theorem backoff_lt {i j : Nat} (h : i < j) : backoff i < backoff j := by
  rw [backoff_eq, backoff_eq]
  exact Nat.mul_lt_mul_of_pos_right (by omega) (by decide)

/-- C10. The sleep before the probe of attempt `i` (from 0) lasts `i + 2`
seconds, the value of `i+1*2`, which is neither `(i+1)*2` nor `i*2`; the
delays of a run are strictly increasing; when all 10 probes fail they are
2, 3, ..., 11 seconds and add up to 65 seconds. -/
theorem backoff_delays (client : Client) :
    (∀ i, backoff i = (i + 2) * Second)
      ∧ (∀ i d, (sleeps (testOpenSearchConnection client).2)[i]? = some d →
          i < 10 ∧ d = (i + 2) * Second)
      ∧ List.Pairwise (fun a b => a < b) (sleeps (testOpenSearchConnection client).2)
      ∧ ((∀ k, k < 10 → (client.Info k).ok = false) →
          sleeps (testOpenSearchConnection client).2
              = [2 * Second, 3 * Second, 4 * Second, 5 * Second, 6 * Second, 7 * Second,
                  8 * Second, 9 * Second, 10 * Second, 11 * Second]
            ∧ (sleeps (testOpenSearchConnection client).2).sum = 65 * Second)
      ∧ backoff 1 ≠ ((1 + 1) * 2) * Second
      ∧ backoff 1 ≠ (1 * 2) * Second := by
  have hs := sleeps_testLoop client 10 0
  have hle := probes_testLoop_le client 10 0
  refine ⟨backoff_eq, ?_, ?_, ?_, by decide, by decide⟩
  · intro i d hd
    unfold testOpenSearchConnection at hd
    rw [hs, List.getElem?_map] at hd
    by_cases hi : i < probes (testLoop client 0 10).2
    · rw [List.getElem?_range hi] at hd
      simp only [Option.map_some', Option.some.injEq, Nat.zero_add] at hd
      exact ⟨by omega, by rw [← hd, backoff_eq]⟩
    · rw [List.getElem?_eq_none (by simpa using hi)] at hd
      simp at hd
  · unfold testOpenSearchConnection
    rw [hs, List.pairwise_map]
    refine List.Pairwise.imp ?_ (List.pairwise_lt_range _)
    intro a b hab
    simp only [Nat.zero_add]
    exact backoff_lt hab
  · intro hall
    have := (testLoop_all_fail client 10 0 (fun k hk => by simpa using hall k hk)).2.2
    unfold testOpenSearchConnection
    rw [this]
    exact ⟨by decide, by decide⟩

theorem backoff_delays_witness :
    (∀ k, k < 10 → (deadClient.Info k).ok = false)
      ∧ sleeps (testOpenSearchConnection deadClient).2
          = [2 * Second, 3 * Second, 4 * Second, 5 * Second, 6 * Second, 7 * Second,
              8 * Second, 9 * Second, 10 * Second, 11 * Second]
      ∧ (sleeps (testOpenSearchConnection deadClient).2).sum = 65 * Second
      ∧ ((sleeps (testOpenSearchConnection exampleClient).2)[3]? = some 5000000000
          ∧ 3 < 10 ∧ 5000000000 = (3 + 2) * Second) :=
  ⟨fun _ _ => rfl, ((backoff_delays deadClient).2.2.2.1 (fun _ _ => rfl)).1,
    ((backoff_delays deadClient).2.2.2.1 (fun _ _ => rfl)).2,
    by decide, (backoff_delays exampleClient).2.1 3 5000000000 (by decide)⟩

/-! ## Startup -/

theorem Getenv_of_unset (environ : List (String × String)) (key : String)
    (h : environ.lookup key = none) : Getenv environ key = "" := by
  simp [Getenv, h]

/-- The prober neither exits nor starts the server. -/
theorem testOpenSearchConnection_no_listen (client : Client) (addr : String) :
    Event.listen addr ∉ (testOpenSearchConnection client).2 := by
  intro h
  rcases testLoop_events client 10 0 _ h with h | ⟨d, h⟩ <;> cases h

/-- C8. In the startup sequence the server is started only if
`OPENSEARCH_URL` is non-empty and `testOpenSearchConnection` returned true.
With `OPENSEARCH_URL` unset or empty the process exits in `log.Fatal` before
any probe and before the server is started; when all 10 probes fail it exits
in `log.Fatal` after them and the server is never started. -/
theorem startup_gate (p : Process) :
    (∀ addr, Event.listen addr ∈ main p →
        Getenv p.environ "OPENSEARCH_URL" ≠ ""
          ∧ ∃ client, p.NewClient [Getenv p.environ "OPENSEARCH_URL"] = .ok client
              ∧ (testOpenSearchConnection client).1 = true)
      ∧ (p.environ.lookup "OPENSEARCH_URL" = none ∨ Getenv p.environ "OPENSEARCH_URL" = "" →
          main p = [Event.fatal "OPENSEARCH_URL environment variable not set"]
            ∧ probes (main p) = 0 ∧ ∀ addr, Event.listen addr ∉ main p)
      ∧ (∀ client, Getenv p.environ "OPENSEARCH_URL" ≠ "" →
          p.NewClient [Getenv p.environ "OPENSEARCH_URL"] = .ok client →
          (∀ k, k < 10 → (client.Info k).ok = false) →
          main p = (testOpenSearchConnection client).2
                ++ [Event.fatal "Unable to connect to OpenSearch. Exiting."]
            ∧ probes (main p) = 10 ∧ ∀ addr, Event.listen addr ∉ main p) := by
  refine ⟨?_, ?_, ?_⟩
  · intro addr hmem
    by_cases hu : Getenv p.environ "OPENSEARCH_URL" = ""
    · simp [main, hu] at hmem
    · refine ⟨hu, ?_⟩
      unfold main at hmem
      simp only [hu, if_false] at hmem
      rcases hN : p.NewClient [Getenv p.environ "OPENSEARCH_URL"] with e | client
      · simp [hN] at hmem
      · refine ⟨client, rfl, ?_⟩
        rw [hN] at hmem
        simp only at hmem
        rcases hT : testOpenSearchConnection client with ⟨r, ev⟩
        cases r with
        | true => rfl
        | false =>
          have hno := testOpenSearchConnection_no_listen client addr
          rw [hT] at hmem hno
          simp only [List.mem_append, List.mem_singleton] at hmem
          rcases hmem with h | h
          · exact absurd h hno
          · cases h
  · intro h
    have hu : Getenv p.environ "OPENSEARCH_URL" = "" := h.elim (Getenv_of_unset _ _) id
    have e : main p = [Event.fatal "OPENSEARCH_URL environment variable not set"] := by
      simp [main, hu]
    rw [e]
    exact ⟨rfl, by decide, fun addr hmem => by simp at hmem⟩
  · intro client hu hN hall
    obtain ⟨h1, h2, -⟩ := testLoop_all_fail client 10 0 (fun k hk => by simpa using hall k hk)
    have e : main p = (testOpenSearchConnection client).2
        ++ [Event.fatal "Unable to connect to OpenSearch. Exiting."] := by
      unfold main
      simp only [hu, if_false, hN]
      rcases hT : testOpenSearchConnection client with ⟨r, ev⟩
      have : r = false := by
        have := h1
        unfold testOpenSearchConnection at hT
        rw [hT] at this
        exact this
      subst this
      rfl
    rw [e]
    refine ⟨rfl, ?_, ?_⟩
    · have : probes (testOpenSearchConnection client).2 = 10 := h2
      simp only [probes, List.count_append] at this ⊢
      rw [this]
      rfl
    · intro addr hmem
      simp only [List.mem_append, List.mem_singleton] at hmem
      rcases hmem with h | h
      · exact testOpenSearchConnection_no_listen client addr h
      · cases h

theorem startup_gate_witness :
    ((List.lookup "OPENSEARCH_URL" unsetProcess.environ = none
          ∨ Getenv unsetProcess.environ "OPENSEARCH_URL" = "")
        ∧ main unsetProcess = [Event.fatal "OPENSEARCH_URL environment variable not set"])
      ∧ (Getenv deadProcess.environ "OPENSEARCH_URL" ≠ ""
        ∧ (∀ k, k < 10 → (deadClient.Info k).ok = false)
        ∧ probes (main deadProcess) = 10
        ∧ ∀ addr, Event.listen addr ∉ main deadProcess)
      ∧ (Event.listen ":8070" ∈ main exampleProcess
        ∧ Getenv exampleProcess.environ "OPENSEARCH_URL" ≠ "") :=
  ⟨⟨Or.inl (by decide), ((startup_gate unsetProcess).2.1 (Or.inl (by decide))).1⟩,
    ⟨by decide, fun _ _ => rfl,
      ((startup_gate deadProcess).2.2 deadClient (by decide) rfl (fun _ _ => rfl)).2.1,
      ((startup_gate deadProcess).2.2 deadClient (by decide) rfl (fun _ _ => rfl)).2.2⟩,
    ⟨by decide, ((startup_gate exampleProcess).1 ":8070" (by decide)).1⟩⟩

end OpenSearchDemo
